import Mathlib

/-!
Verification of `src/packages/@aws-cdk/aws-ecs/lib/ec2/ec2-run-task.ts`
(`Ec2RunTask`, a StepFunctions task running an ECS task on EC2) against its
specification.  The TypeScript class is shallowly embedded: the mutable
instance becomes an explicit state record `Ec2RunTask`, the constructor and
each public method become state-passing functions, constructor `throw`s become
`Except.error`, and the two `cdk.Token` resolver closures installed by the
constructor become functions of the state at resolution time.
-/

namespace AwsCdk

/-- Network mode of a task definition (`NetworkMode` from
`../base/task-definition`). Only the four variants used by the source matter. -/
inductive NetworkMode
  | None
  | Bridge
  | Host
  | AwsVpc
deriving DecidableEq, Repr

/-- Modelled from the spec: `Compatibility` of a task definition, from a file
not under src/ (`../base/task-definition`); a task definition targets EC2,
Fargate, or both. -/
inductive Compatibility
  | Ec2
  | Fargate
  | Ec2AndFargate
deriving DecidableEq, Repr

/-- Modelled from the spec: `isEc2Compatible` from `../util` (not under src/);
a task definition is EC2-compatible unless it targets Fargate only. -/
def isEc2Compatible : Compatibility → Bool
  | Compatibility.Fargate => false
  | _ => true

/-- One entry of the `constraints` accumulator. The source pushes the plain
objects `\x7b Type: 'distinctInstance' \x7d` and
`\x7b Type: 'memberOf', expression \x7d`; the `Type` discriminant becomes the
constructor. -/
inductive Constraint
  | distinctInstance
  | memberOf (expression : String)
deriving DecidableEq, Repr

/-- One entry of the `strategies` accumulator. The source pushes
`\x7b Type: 'spread', Field \x7d`, `\x7b Type: 'binpack', Field \x7d` and
`\x7b Type: 'random' \x7d`. -/
inductive Strategy
  | spread (Field : String)
  | binpack (Field : String)
  | random
deriving DecidableEq, Repr

/-- Modelled from the spec: `BinPackResource` from `./ec2-service`
(not under src/), the resource by which to bin-pack. -/
inductive BinPackResource
  | Cpu
  | Memory
deriving DecidableEq, Repr

/-- Modelled from the spec: the string carried by a `BinPackResource` value,
used as the `Field` of a `binpack` strategy entry. -/
def BinPackResource.field : BinPackResource → String
  | BinPackResource.Cpu => "cpu"
  | BinPackResource.Memory => "memory"

/-- Modelled from the spec: `BuiltInAttributes.InstanceId` from `./ec2-service`
(not under src/), the built-in unique-instance-identifier attribute; the source
doc comment of `placeSpreadAcross` names the default `attributes instanceId`. -/
def BuiltInAttributes.InstanceId : String := "instanceId"

/-- A container definition; only what the source inspects is kept. -/
structure ContainerDefinition where
  essential : Bool
deriving DecidableEq, Repr

/-- A task definition, restricted to the fields the source reads
(`compatibility`, `networkMode`, `defaultContainer`). -/
structure TaskDefinition where
  compatibility : Compatibility
  networkMode : NetworkMode
  defaultContainer : Option ContainerDefinition
deriving DecidableEq, Repr

/-- An existing security group, identified abstractly. -/
structure SecurityGroup where
  id : String
deriving DecidableEq, Repr

/-- Where to place the task's ENIs; only its presence matters to the source. -/
structure VpcPlacementStrategy where
  subnetName : Option String
deriving DecidableEq, Repr

/-- The `connections` object of a cluster, restricted to its security groups. -/
structure Connections where
  securityGroups : List SecurityGroup
deriving DecidableEq, Repr

/-- The referenced cluster (`ICluster`), restricted to the members the source
reads: `hasEc2Capacity` and `connections.securityGroups`. -/
structure ICluster where
  hasEc2Capacity : Bool
  connections : Connections
deriving DecidableEq, Repr

/-- `Ec2RunTaskProps`: the constructor properties the source reads. -/
structure Ec2RunTaskProps where
  taskDefinition : TaskDefinition
  cluster : ICluster
  vpcPlacement : Option VpcPlacementStrategy
  securityGroup : Option SecurityGroup
  placeOnDistinctInstances : Option Bool
deriving DecidableEq, Repr

/-- The `_parameters` map, restricted to the concrete (non-token) entry the
source writes: `LaunchType`.  The two token-valued entries
(`PlacementConstraints`, `PlacementStrategy`) are closures over the instance
and are embedded as the resolution functions below. -/
structure Parameters where
  LaunchType : String
deriving DecidableEq, Repr

/-- The state of an `Ec2RunTask` instance after a successful constructor run. -/
structure Ec2RunTask where
  constraints : List Constraint
  strategies : List Strategy
  cluster : ICluster
  parameters : Parameters
  connectionsSecurityGroups : List SecurityGroup
deriving DecidableEq, Repr

/-- The resolver closure installed at line 63 of the source:
`new cdk.Token(() => this.constraints.length > 0 ? this.constraints : undefined)`.
`none` embeds `undefined` (the property is absent from the template). -/
def Ec2RunTask.resolvePlacementConstraints (self : Ec2RunTask) : Option (List Constraint) :=
  if self.constraints.length > 0 then some self.constraints else none

/-- The resolver closure installed at line 64 of the source:
`new cdk.Token(() => this.constraints.length > 0 ? this.strategies : undefined)`.
Note that the source tests `this.constraints.length`, not
`this.strategies.length`. -/
def Ec2RunTask.resolvePlacementStrategy (self : Ec2RunTask) : Option (List Strategy) :=
  if self.constraints.length > 0 then some self.strategies else none

/-- Modelled from the spec: `configureAwsVpcNetworking` from the base class
`BaseRunTask` (not under src/).  It configures ENI networking for AwsVpc mode
and accepts the `vpcPlacement`/`securityGroup` properties; it touches none of
the state tracked here (placement accumulators, `LaunchType`, cluster). -/
def configureAwsVpcNetworking (self : Ec2RunTask)
    (_vpcPlacement : Option VpcPlacementStrategy)
    (_securityGroup : Option SecurityGroup) : Ec2RunTask :=
  self

/-- `validateNoNetworkingProps` (source lines 149-153): throws when
`vpcPlacement` or `securityGroup` is supplied outside AwsVpc networking mode. -/
def validateNoNetworkingProps (props : Ec2RunTaskProps) : Except String Unit :=
  if props.vpcPlacement.isSome || props.securityGroup.isSome then
    Except.error "vpcPlacement and securityGroup can only be used in AwsVpc networking mode"
  else
    Except.ok ()

/-- The instance state right after `super(scope, id, props)` and the field
initializations of source lines 56-64: both accumulators empty, `LaunchType`
set to the constant `'EC2'`, the two placement tokens installed (embedded as
the `resolve...` functions above). -/
def initialState (props : Ec2RunTaskProps) : Ec2RunTask :=
  { constraints := []
    strategies := []
    cluster := props.cluster
    parameters := { LaunchType := "EC2" }
    connectionsSecurityGroups := [] }

/-- The networking branch of the constructor (source lines 66-72): AwsVpc mode
calls `configureAwsVpcNetworking` with the networking props; any other mode
first runs `validateNoNetworkingProps` (which may throw) and then copies the
cluster's security groups onto the task's connections. -/
def constructNet (props : Ec2RunTaskProps) : Except String Ec2RunTask :=
  if props.taskDefinition.networkMode = NetworkMode.AwsVpc then
    Except.ok (configureAwsVpcNetworking (initialState props) props.vpcPlacement props.securityGroup)
  else
    match validateNoNetworkingProps props with
    | Except.error e => Except.error e
    | Except.ok _ =>
      Except.ok { initialState props with connectionsSecurityGroups :=
        (initialState props).connectionsSecurityGroups ++ props.cluster.connections.securityGroups }

/-- The `Ec2RunTask` constructor (source lines 47-84).  The two pre-`super`
checks throw (`Except.error`) before any state exists; then the state is
initialized, networking is configured per the task definition's network mode,
and a `distinctInstance` constraint is appended when
`placeOnDistinctInstances` is truthy (source lines 81-83). -/
def Ec2RunTask.construct (props : Ec2RunTaskProps) : Except String Ec2RunTask :=
  if isEc2Compatible props.taskDefinition.compatibility = false then
    Except.error "Supplied TaskDefinition is not configured for compatibility with EC2"
  else if props.taskDefinition.defaultContainer.isNone then
    Except.error "A TaskDefinition must have at least one essential container"
  else
    (constructNet props).map fun t =>
      if props.placeOnDistinctInstances = some true then
        { t with constraints := t.constraints ++ [Constraint.distinctInstance] }
      else t

/-- `placeOnMemberOf(...expressions)` (source lines 94-98): pushes one
`memberOf` constraint per expression, in order. -/
def Ec2RunTask.placeOnMemberOf (self : Ec2RunTask) (expressions : List String) : Ec2RunTask :=
  expressions.foldl
    (fun s expression => { s with constraints := s.constraints ++ [Constraint.memberOf expression] })
    self

/-- `placeSpreadAcross(...fields)` (source lines 109-116): defaults the empty
field list to `[BuiltInAttributes.InstanceId]`, then pushes one `spread`
strategy per field, in order. -/
def Ec2RunTask.placeSpreadAcross (self : Ec2RunTask) (fields : List String) : Ec2RunTask :=
  let fields := if fields.length = 0 then [BuiltInAttributes.InstanceId] else fields
  fields.foldl
    (fun s field => { s with strategies := s.strategies ++ [Strategy.spread field] })
    self

/-- `placePackedBy(resource)` (source lines 123-125): pushes one `binpack`
strategy. -/
def Ec2RunTask.placePackedBy (self : Ec2RunTask) (resource : BinPackResource) : Ec2RunTask :=
  { self with strategies := self.strategies ++ [Strategy.binpack resource.field] }

/-- `placeRandomly()` (source lines 130-132): pushes one `random` strategy. -/
def Ec2RunTask.placeRandomly (self : Ec2RunTask) : Ec2RunTask :=
  { self with strategies := self.strategies ++ [Strategy.random] }

/-- `validate()` (source lines 137-143): starts from the superclass's errors
and appends the missing-capacity message when the cluster has no EC2
capacity. -/
def Ec2RunTask.validate (self : Ec2RunTask) (superErrors : List String) : List String :=
  if self.cluster.hasEc2Capacity = false then
    superErrors ++ ["Cluster for this service needs Ec2 capacity. Call addXxxCapacity() on the cluster."]
  else
    superErrors

/-- Whether the constructor succeeds on the given properties. -/
def constructOk (props : Ec2RunTaskProps) : Bool :=
  match Ec2RunTask.construct props with
  | Except.ok _ => true
  | Except.error _ => false

/-- Modelled from the spec: a `DeferredValue` (`cdk.Token`) as used by this
construct, from the cdk core (not under src/): a resolver closure over the
mutable instance state plus a cache; `resolve()` invokes the resolver on the
first call only and returns the cached concrete value afterwards. -/
structure DeferredValue (σ : Type) (α : Type) where
  resolver : σ → α
  cache : Option α

/-- Modelled from the spec: resolving a `DeferredValue` against the current
accumulator state.  Returns the concrete value, the updated deferred value,
and the number of resolver invocations this call performed (0 or 1). -/
def DeferredValue.resolve {σ α : Type} (d : DeferredValue σ α) (s : σ) :
    α × DeferredValue σ α × Nat :=
  match d.cache with
  | some v => (v, d, 0)
  | none =>
    let v := d.resolver s
    (v, { resolver := d.resolver, cache := some v }, 1)

/-- A placement call made on an already-constructed task. -/
inductive PlacementCall
  | memberOf (expressions : List String)
  | spreadAcross (fields : List String)
  | packedBy (resource : BinPackResource)
  | randomly
deriving DecidableEq, Repr

/-- Apply one placement call to the instance state. -/
def applyCall (self : Ec2RunTask) : PlacementCall → Ec2RunTask
  | PlacementCall.memberOf es => self.placeOnMemberOf es
  | PlacementCall.spreadAcross fs => self.placeSpreadAcross fs
  | PlacementCall.packedBy r => self.placePackedBy r
  | PlacementCall.randomly => self.placeRandomly

/-- Apply a sequence of placement calls, earliest first. -/
def applyCalls (self : Ec2RunTask) (calls : List PlacementCall) : Ec2RunTask :=
  calls.foldl applyCall self

/-! Concrete sample inputs used by the closed theorems and witnesses. -/

/-- An EC2-compatible task definition with a default container and AwsVpc
networking. -/
def sampleTaskDefinition : TaskDefinition :=
  { compatibility := Compatibility.Ec2
    networkMode := NetworkMode.AwsVpc
    defaultContainer := some { essential := true } }

/-- A cluster with EC2 capacity and no security groups. -/
def sampleCluster : ICluster :=
  { hasEc2Capacity := true, connections := { securityGroups := [] } }

/-- Well-formed constructor properties with no optional property supplied. -/
def sampleProps : Ec2RunTaskProps :=
  { taskDefinition := sampleTaskDefinition
    cluster := sampleCluster
    vpcPlacement := none
    securityGroup := none
    placeOnDistinctInstances := none }

/-- The state `Ec2RunTask.construct sampleProps` produces. -/
def sampleTask : Ec2RunTask :=
  { constraints := []
    strategies := []
    cluster := sampleCluster
    parameters := { LaunchType := "EC2" }
    connectionsSecurityGroups := [] }

/-- Properties whose task definition targets Fargate only. -/
def fargateProps : Ec2RunTaskProps :=
  { taskDefinition :=
      { compatibility := Compatibility.Fargate
        networkMode := NetworkMode.AwsVpc
        defaultContainer := some { essential := true } }
    cluster := sampleCluster
    vpcPlacement := none
    securityGroup := none
    placeOnDistinctInstances := none }

/-- Properties whose task definition has no default (essential) container. -/
def noContainerProps : Ec2RunTaskProps :=
  { taskDefinition :=
      { compatibility := Compatibility.Ec2
        networkMode := NetworkMode.AwsVpc
        defaultContainer := none }
    cluster := sampleCluster
    vpcPlacement := none
    securityGroup := none
    placeOnDistinctInstances := none }

/-- A cluster with no EC2 capacity. -/
def noCapCluster : ICluster :=
  { hasEc2Capacity := false, connections := { securityGroups := [] } }

/-- Well-formed properties referencing the no-capacity cluster. -/
def noCapProps : Ec2RunTaskProps :=
  { taskDefinition := sampleTaskDefinition
    cluster := noCapCluster
    vpcPlacement := none
    securityGroup := none
    placeOnDistinctInstances := none }

/-- The state `Ec2RunTask.construct noCapProps` produces. -/
def noCapTask : Ec2RunTask :=
  { constraints := []
    strategies := []
    cluster := noCapCluster
    parameters := { LaunchType := "EC2" }
    connectionsSecurityGroups := [] }

/-- Properties with Bridge networking and a supplied security group. -/
def bridgeProps : Ec2RunTaskProps :=
  { taskDefinition :=
      { compatibility := Compatibility.Ec2
        networkMode := NetworkMode.Bridge
        defaultContainer := some { essential := true } }
    cluster := sampleCluster
    vpcPlacement := none
    securityGroup := some { id := "sg-1" }
    placeOnDistinctInstances := none }

/-- Properties with AwsVpc networking and both networking props supplied. -/
def awsVpcProps : Ec2RunTaskProps :=
  { taskDefinition := sampleTaskDefinition
    cluster := sampleCluster
    vpcPlacement := some { subnetName := some "private" }
    securityGroup := some { id := "sg-1" }
    placeOnDistinctInstances := none }

/-- The `PlacementConstraints` token of a task, as a cacheable deferred value
over the mutable instance state. -/
def pcToken : DeferredValue Ec2RunTask (Option (List Constraint)) :=
  { resolver := Ec2RunTask.resolvePlacementConstraints, cache := none }

/-! Helper lemmas about the placement operations and the constructor. -/

theorem placeOnMemberOf_eq (t : Ec2RunTask) (es : List String) :
    t.placeOnMemberOf es
      = { t with constraints := t.constraints ++ es.map Constraint.memberOf } := by
  induction es generalizing t with
  | nil => simp [Ec2RunTask.placeOnMemberOf]
  | cons e es ih =>
    rw [show t.placeOnMemberOf (e :: es)
        = ({ t with constraints := t.constraints ++ [Constraint.memberOf e] } :
            Ec2RunTask).placeOnMemberOf es from rfl]
    rw [ih]
    simp

theorem spreadFoldl_eq (t : Ec2RunTask) (fields : List String) :
    fields.foldl
        (fun s field => { s with strategies := s.strategies ++ [Strategy.spread field] }) t
      = { t with strategies := t.strategies ++ fields.map Strategy.spread } := by
  induction fields generalizing t with
  | nil => simp
  | cons f fs ih =>
    rw [List.foldl_cons, ih]
    simp

theorem placeSpreadAcross_eq_general (t : Ec2RunTask) (fields : List String) :
    t.placeSpreadAcross fields
      = { t with strategies :=
            t.strategies ++
              ((if fields.length = 0 then [BuiltInAttributes.InstanceId] else fields).map Strategy.spread) } := by
  unfold Ec2RunTask.placeSpreadAcross
  exact spreadFoldl_eq t _

theorem placeSpreadAcross_eq (t : Ec2RunTask) (fields : List String) (h : fields ≠ []) :
    t.placeSpreadAcross fields
      = { t with strategies := t.strategies ++ fields.map Strategy.spread } := by
  rw [placeSpreadAcross_eq_general]
  simp [List.length_eq_zero, h]

theorem placeSpreadAcross_nil (t : Ec2RunTask) :
    t.placeSpreadAcross []
      = { t with strategies := t.strategies ++ [Strategy.spread BuiltInAttributes.InstanceId] } := by
  rw [placeSpreadAcross_eq_general]
  simp

theorem constructNet_ok (props : Ec2RunTaskProps) (t : Ec2RunTask)
    (h : constructNet props = Except.ok t) :
    t.constraints = [] ∧ t.strategies = [] ∧
    t.parameters = { LaunchType := "EC2" } ∧ t.cluster = props.cluster := by
  unfold constructNet at h
  split at h
  · simp only [configureAwsVpcNetworking, Except.ok.injEq] at h
    subst h
    exact ⟨rfl, rfl, rfl, rfl⟩
  · split at h
    · simp at h
    · simp only [Except.ok.injEq] at h
      subst h
      exact ⟨rfl, rfl, rfl, rfl⟩

theorem construct_ok (props : Ec2RunTaskProps) (t : Ec2RunTask)
    (h : Ec2RunTask.construct props = Except.ok t) :
    t.strategies = [] ∧
    t.parameters = { LaunchType := "EC2" } ∧
    t.cluster = props.cluster ∧
    (props.placeOnDistinctInstances = some true → t.constraints = [Constraint.distinctInstance]) ∧
    (props.placeOnDistinctInstances ≠ some true → t.constraints = []) := by
  unfold Ec2RunTask.construct at h
  split at h
  · simp at h
  · split at h
    · simp at h
    · cases hnet : constructNet props with
      | error e => rw [hnet] at h; simp [Except.map] at h
      | ok u =>
        rw [hnet] at h
        simp only [Except.map, Except.ok.injEq] at h
        obtain ⟨hc, hs, hp, hcl⟩ := constructNet_ok props u hnet
        by_cases hd : props.placeOnDistinctInstances = some true
        · rw [if_pos hd] at h
          subst h
          exact ⟨hs, hp, hcl, fun _ => by simp [hc], fun hcontra => absurd hd hcontra⟩
        · rw [if_neg hd] at h
          subst h
          exact ⟨hs, hp, hcl, fun hcontra => absurd hcontra hd, fun _ => hc⟩

theorem applyCall_parameters (t : Ec2RunTask) (c : PlacementCall) :
    (applyCall t c).parameters = t.parameters := by
  cases c with
  | memberOf es => rw [applyCall, placeOnMemberOf_eq]
  | spreadAcross fs => rw [applyCall, placeSpreadAcross_eq_general]
  | packedBy r => rfl
  | randomly => rfl

theorem applyCalls_parameters (t : Ec2RunTask) (calls : List PlacementCall) :
    (applyCalls t calls).parameters = t.parameters := by
  induction calls generalizing t with
  | nil => rfl
  | cons c cs ih => exact (ih (applyCall t c)).trans (applyCall_parameters t c)

/-! Claim theorems. -/

/-- C1: the claim fails on the code.  At the failing input — a task constructed
with no constraints that then makes a single `placeSpreadAcross()` call with no
arguments — the strategies accumulator holds the claimed one-entry default
list, yet the `PlacementStrategy` deferred value resolves to absent (`none`),
not to that list: the resolver at source line 64 tests
`this.constraints.length` where the spec requires the strategies list's own
emptiness to be tested. -/
theorem C1_placementStrategy_gate_defect :
    (Ec2RunTask.construct sampleProps).map
        (fun t =>
          ((t.placeSpreadAcross []).strategies,
           (t.placeSpreadAcross []).resolvePlacementStrategy))
      = Except.ok ([Strategy.spread "instanceId"], none) := rfl

/-- C2: for every `Ec2RunTask` constructed without `placeOnDistinctInstances`
set to true and before any placement call, both the `PlacementConstraints` and
the `PlacementStrategy` deferred values resolve to absent (`none`), never to a
present-but-empty list. -/
theorem C2_empty_resolves_absent (props : Ec2RunTaskProps) (t : Ec2RunTask)
    (hd : props.placeOnDistinctInstances ≠ some true)
    (h : Ec2RunTask.construct props = Except.ok t) :
    t.resolvePlacementConstraints = none ∧ t.resolvePlacementStrategy = none := by
  have hc : t.constraints = [] := (construct_ok props t h).2.2.2.2 hd
  constructor
  · simp [Ec2RunTask.resolvePlacementConstraints, hc]
  · simp [Ec2RunTask.resolvePlacementStrategy, hc]

/-- Witness for C2 at the concrete sample properties. -/
theorem C2_empty_resolves_absent_witness :
    sampleProps.placeOnDistinctInstances ≠ some true ∧
    Ec2RunTask.construct sampleProps = Except.ok sampleTask ∧
    (sampleTask.resolvePlacementConstraints = none ∧
     sampleTask.resolvePlacementStrategy = none) :=
  ⟨by decide, rfl, C2_empty_resolves_absent sampleProps sampleTask (by decide) rfl⟩

/-- C3: on a task with no prior constraints, `placeOnMemberOf("a")` followed by
`placeOnMemberOf("b")`, or a single `placeOnMemberOf("a", "b")`, makes the
`PlacementConstraints` deferred value resolve to exactly the ordered two-entry
list of `memberOf` constraints; in general `placeOnMemberOf` appends one
`memberOf` entry per expression in argument order. -/
theorem C3_memberOf_appends (t : Ec2RunTask) (h : t.constraints = []) :
    ((t.placeOnMemberOf ["a"]).placeOnMemberOf ["b"]).resolvePlacementConstraints
        = some [Constraint.memberOf "a", Constraint.memberOf "b"] ∧
    (t.placeOnMemberOf ["a", "b"]).resolvePlacementConstraints
        = some [Constraint.memberOf "a", Constraint.memberOf "b"] ∧
    ∀ (u : Ec2RunTask) (exprs : List String),
      (u.placeOnMemberOf exprs).constraints = u.constraints ++ exprs.map Constraint.memberOf := by
  refine ⟨?_, ?_, ?_⟩
  · rw [placeOnMemberOf_eq, placeOnMemberOf_eq]
    simp [Ec2RunTask.resolvePlacementConstraints, h]
  · rw [placeOnMemberOf_eq]
    simp [Ec2RunTask.resolvePlacementConstraints, h]
  · intro u exprs
    rw [placeOnMemberOf_eq]

/-- Witness for C3 at the concrete sample task. -/
theorem C3_memberOf_appends_witness :
    sampleTask.constraints = [] ∧
    ((sampleTask.placeOnMemberOf ["a"]).placeOnMemberOf ["b"]).resolvePlacementConstraints
      = some [Constraint.memberOf "a", Constraint.memberOf "b"] :=
  ⟨rfl, (C3_memberOf_appends sampleTask rfl).1⟩

/-- C4: `placeSpreadAcross` with a non-empty field list appends exactly one
`spread` strategy entry per field in argument order, and with zero fields
appends exactly one `spread` entry whose `Field` is
`BuiltInAttributes.InstanceId`. -/
theorem C4_spreadAcross_appends (t : Ec2RunTask) (fields : List String) (h : fields ≠ []) :
    (t.placeSpreadAcross fields).strategies = t.strategies ++ fields.map Strategy.spread ∧
    (t.placeSpreadAcross []).strategies
      = t.strategies ++ [Strategy.spread BuiltInAttributes.InstanceId] := by
  constructor
  · rw [placeSpreadAcross_eq t fields h]
  · rw [placeSpreadAcross_nil]

/-- Witness for C4 at the concrete sample task and two fields. -/
theorem C4_spreadAcross_appends_witness :
    (["a", "b"] : List String) ≠ [] ∧
    (sampleTask.placeSpreadAcross ["a", "b"]).strategies
      = sampleTask.strategies ++ [Strategy.spread "a", Strategy.spread "b"] :=
  ⟨by decide, (C4_spreadAcross_appends sampleTask ["a", "b"] (by decide)).1⟩

/-- C5: constructing an `Ec2RunTask` whose task definition is not
EC2-compatible, or has no default (essential) container, fails immediately by
throwing (`Except.error`), before any construct state is produced — the error
is not deferred to the synthesis-time report. -/
theorem C5_construct_fails_fast (props : Ec2RunTaskProps) :
    (isEc2Compatible props.taskDefinition.compatibility = false →
      Ec2RunTask.construct props
        = Except.error "Supplied TaskDefinition is not configured for compatibility with EC2") ∧
    (isEc2Compatible props.taskDefinition.compatibility = true →
      props.taskDefinition.defaultContainer = none →
      Ec2RunTask.construct props
        = Except.error "A TaskDefinition must have at least one essential container") := by
  constructor
  · intro h
    simp [Ec2RunTask.construct, h]
  · intro h1 h2
    simp [Ec2RunTask.construct, h1, h2]

/-- Witness for C5 at a Fargate-only task definition and at a task definition
with no default container. -/
theorem C5_construct_fails_fast_witness :
    Ec2RunTask.construct fargateProps
      = Except.error "Supplied TaskDefinition is not configured for compatibility with EC2" ∧
    Ec2RunTask.construct noContainerProps
      = Except.error "A TaskDefinition must have at least one essential container" :=
  ⟨(C5_construct_fails_fast fargateProps).1 rfl,
   (C5_construct_fails_fast noContainerProps).2 rfl rfl⟩

/-- C6: when the referenced cluster has no EC2 capacity, `validate()` returns
the superclass's errors with the missing-capacity message appended (reported at
synthesis time, not thrown at construction); when the cluster has EC2
capacity, `validate()` returns exactly the superclass's errors. -/
theorem C6_validate_capacity (t : Ec2RunTask) (superErrors : List String) :
    (t.cluster.hasEc2Capacity = false →
      t.validate superErrors
        = superErrors
            ++ ["Cluster for this service needs Ec2 capacity. Call addXxxCapacity() on the cluster."]) ∧
    (t.cluster.hasEc2Capacity = true → t.validate superErrors = superErrors) := by
  constructor <;> intro h <;> simp [Ec2RunTask.validate, h]

/-- Witness for C6: a no-capacity cluster still constructs successfully and
`validate` appends the capacity message after the superclass's errors. -/
theorem C6_validate_capacity_witness :
    Ec2RunTask.construct noCapProps = Except.ok noCapTask ∧
    noCapTask.cluster.hasEc2Capacity = false ∧
    noCapTask.validate ["base"]
      = ["base", "Cluster for this service needs Ec2 capacity. Call addXxxCapacity() on the cluster."] :=
  ⟨rfl, rfl, (C6_validate_capacity noCapTask ["base"]).1 rfl⟩

/-- C7: on an otherwise valid task definition with a non-AwsVpc network mode,
supplying `vpcPlacement` or `securityGroup` makes construction fail immediately
with the networking error; with AwsVpc network mode construction succeeds (the
two properties are accepted and no such error is raised). -/
theorem C7_networking_props (props : Ec2RunTaskProps)
    (hc : isEc2Compatible props.taskDefinition.compatibility = true)
    (hd : props.taskDefinition.defaultContainer.isSome = true) :
    (props.taskDefinition.networkMode ≠ NetworkMode.AwsVpc →
      (props.vpcPlacement.isSome = true ∨ props.securityGroup.isSome = true) →
      Ec2RunTask.construct props
        = Except.error "vpcPlacement and securityGroup can only be used in AwsVpc networking mode") ∧
    (props.taskDefinition.networkMode = NetworkMode.AwsVpc → constructOk props = true) := by
  obtain ⟨c, hc2⟩ := Option.isSome_iff_exists.mp hd
  constructor
  · intro hn hp
    have hv : validateNoNetworkingProps props
        = Except.error "vpcPlacement and securityGroup can only be used in AwsVpc networking mode" := by
      rcases hp with hp | hp <;> simp [validateNoNetworkingProps, hp]
    simp [Ec2RunTask.construct, constructNet, hc, hc2, hn, hv, Except.map]
  · intro hn
    simp only [constructOk, Ec2RunTask.construct, constructNet, hc, hc2, hn]
    simp [Except.map]

/-- Witness for C7 at Bridge networking with a security group, and at AwsVpc
networking with both networking properties supplied. -/
theorem C7_networking_props_witness :
    Ec2RunTask.construct bridgeProps
      = Except.error "vpcPlacement and securityGroup can only be used in AwsVpc networking mode" ∧
    constructOk awsVpcProps = true :=
  ⟨(C7_networking_props bridgeProps rfl rfl).1 (by decide) (Or.inr rfl),
   (C7_networking_props awsVpcProps rfl rfl).2 rfl⟩

/-- C8: the claim fails on the code.  At the failing input — a `placeRandomly()`
call made after construction, with the constraints accumulator still empty —
the strategies accumulator does reflect the later call, but the resolved
`PlacementStrategy` value is absent (`none`) rather than the one-entry list,
so the later strategy call is not reflected in the resolved result: the
resolver at source line 64 gates presence on `this.constraints.length`. -/
theorem C8_later_calls_gate_defect :
    (Ec2RunTask.construct sampleProps).map
        (fun t => ((t.placeRandomly).strategies, (t.placeRandomly).resolvePlacementStrategy))
      = Except.ok ([Strategy.random], none) := rfl

/-- C9: resolving the same deferred value twice invokes its underlying resolver
exactly once: the first resolution's result is cached and returned by the
second resolution even when the underlying accumulator state passed at the
second resolution differs from the first. -/
theorem C9_resolve_memoized {σ α : Type} (d : DeferredValue σ α) (s1 s2 : σ)
    (h : d.cache = none) :
    (d.resolve s1).2.2 + (((d.resolve s1).2.1).resolve s2).2.2 = 1 ∧
    (((d.resolve s1).2.1).resolve s2).1 = (d.resolve s1).1 := by
  simp [DeferredValue.resolve, h]

/-- Witness for C9: the `PlacementConstraints` token of the sample task,
resolved once against the constructed state and once against a state mutated
by a later `placeOnMemberOf` call. -/
theorem C9_resolve_memoized_witness :
    pcToken.cache = none ∧
    ((pcToken.resolve sampleTask).2.2
        + (((pcToken.resolve sampleTask).2.1).resolve (sampleTask.placeOnMemberOf ["a"])).2.2 = 1 ∧
     (((pcToken.resolve sampleTask).2.1).resolve (sampleTask.placeOnMemberOf ["a"])).1
        = (pcToken.resolve sampleTask).1) :=
  ⟨rfl, C9_resolve_memoized pcToken sampleTask (sampleTask.placeOnMemberOf ["a"]) rfl⟩

/-- C10: every successfully constructed `Ec2RunTask` has `LaunchType` equal to
the constant `"EC2"`, and no sequence of subsequent placement calls changes
it. -/
theorem C10_launchType_constant (props : Ec2RunTaskProps) (t : Ec2RunTask)
    (calls : List PlacementCall) (h : Ec2RunTask.construct props = Except.ok t) :
    (applyCalls t calls).parameters.LaunchType = "EC2" := by
  rw [applyCalls_parameters, (construct_ok props t h).2.1]

/-- Witness for C10 at the sample properties and a two-call sequence. -/
theorem C10_launchType_constant_witness :
    Ec2RunTask.construct sampleProps = Except.ok sampleTask ∧
    (applyCalls sampleTask
        [PlacementCall.randomly, PlacementCall.memberOf ["a"]]).parameters.LaunchType = "EC2" :=
  ⟨rfl,
   C10_launchType_constant sampleProps sampleTask
     [PlacementCall.randomly, PlacementCall.memberOf ["a"]] rfl⟩

end AwsCdk
